import Mathlib

/-!
Verification of the pure python state renderer (`salt/renderers/py.py`).

The module exposes one public operation:

    def render(template, saltenv="base", sls="", tmplpath=None, **kws):
        template = tmplpath
        if not os.path.isfile(template):
            raise SaltRenderError("Template {} is not a file!".format(template))
        tmp_data = salt.utils.templates.py(
            template, True,
            __salt__=__salt__, salt=__salt__,
            __grains__=__grains__, grains=__grains__,
            __opts__=__opts__, opts=__opts__,
            __pillar__=__pillar__, pillar=__pillar__,
            __env__=saltenv, saltenv=saltenv,
            __sls__=sls, sls=sls,
            **kws)
        if not tmp_data.get("result", False):
            raise SaltRenderError(tmp_data.get("data", "Unknown render error in py renderer"))
        return tmp_data["data"]

The shallow embedding below models the Python semantics of this function:

* Python values are `PyVal`; dictionaries are association lists with unique
  keys and first-match lookup.
* The filesystem (`os.path.isfile`) is an oracle `String → Bool`.
* The script executor `salt.utils.templates.py` is opaque: a function from
  the template path and the keyword-argument context to the returned result
  envelope (a Python dict, per its contract).
* Exceptions are the error side of `Except`.  Both `raise SaltRenderError`
  sites are kept apart (`templateNotFound` for the isfile check at line 143,
  `renderError` for the envelope check at lines 163-165), matching the two
  error kinds of the design.  Python dynamic errors the code can also hit are
  modelled faithfully: `typeError` for `os.path.isfile(None)` (the default
  `tmplpath`) and for a duplicate keyword argument between the explicit
  keywords and `**kws` at the `salt.utils.templates.py` call, and `keyError`
  for `tmp_data["data"]` when the key is absent.
* `renderT` additionally returns the trace of externally visible events
  (the isfile check, the executor invocation) so that ordering claims
  ("the executor is never invoked for a missing template") are statable.
-/

namespace PyRenderer

/-- Python values, as far as the renderer manipulates them.  Dictionaries are
association lists (insertion order, unique keys, first-match lookup). -/
inductive PyVal where
  | none
  | bool (b : Bool)
  | int (n : Int)
  | str (s : String)
  | list (xs : List PyVal)
  | dict (entries : List (String × PyVal))
  deriving Repr

/-- Python truthiness (`bool(v)`), for the values of `PyVal`. -/
def truthy : PyVal → Bool
  | PyVal.none => false
  | PyVal.bool b => b
  | PyVal.int n => n != 0
  | PyVal.str s => s != ""
  | PyVal.list xs => !xs.isEmpty
  | PyVal.dict es => !es.isEmpty

/-- First-match lookup in a Python dict (`d[k]` when present): the embedding of
dictionary subscription, returning `Option.none` where Python raises KeyError. -/
def dictLookup (es : List (String × PyVal)) (k : String) : Option PyVal :=
  (es.find? (fun e => e.1 == k)).map (fun e => e.2)

/-- `d.get(k, dflt)`: lookup with a default. -/
def dictGet (es : List (String × PyVal)) (k : String) (dflt : PyVal) : PyVal :=
  (dictLookup es k).getD dflt

/-- How a `render` call can fail.  `templateNotFound` and `renderError` are the
two `raise SaltRenderError` sites of the function (line 143 and lines 163-165
of py.py); `typeError` and `keyError` are the Python dynamic errors the code
can also raise (`os.path.isfile(None)`, a duplicate keyword argument at the
`salt.utils.templates.py` call, and `tmp_data["data"]` on a missing key). -/
inductive RenderFailure where
  | templateNotFound (msg : String)
  | renderError (msg : PyVal)
  | typeError (msg : String)
  | keyError (k : String)
  deriving Repr

/-- Externally visible events of one `render` call, in order: the existence
check of the template path, and the invocation of the script executor with the
assembled context. -/
inductive RenderEvent where
  | checked (path : Option String)
  | executed (path : String) (ctx : List (String × PyVal))
  deriving Repr

/-- The opaque script executor `salt.utils.templates.py`: from the template
path and the keyword-argument context to the result envelope it returns (a
Python dict, the shape its contract requires). -/
def Executor : Type :=
  String → List (String × PyVal) → List (String × PyVal)

/-- The explicit keyword arguments passed to `salt.utils.templates.py` at
lines 148-159: each built-in binding under its reserved dunder name and its
short alias, both bound to the identical value, in source order. -/
def builtinBindings (saltVal grainsVal optsVal pillarVal : PyVal)
    (saltenv sls : String) : List (String × PyVal) :=
  [("__salt__", saltVal), ("salt", saltVal),
   ("__grains__", grainsVal), ("grains", grainsVal),
   ("__opts__", optsVal), ("opts", optsVal),
   ("__pillar__", pillarVal), ("pillar", pillarVal),
   ("__env__", PyVal.str saltenv), ("saltenv", PyVal.str saltenv),
   ("__sls__", PyVal.str sls), ("sls", PyVal.str sls)]

/-- Python call semantics for `f(explicit..., **kws)`: the keyword dict is the
explicit keywords followed by the entries of `kws`; a key of `kws` that is
already present raises `TypeError: got multiple values for keyword argument`. -/
def mergeKwargs : List (String × PyVal) → List (String × PyVal) →
    Except RenderFailure (List (String × PyVal))
  | explicit, [] => Except.ok explicit
  | explicit, (k, v) :: rest =>
    if explicit.any (fun e => e.1 == k) then
      Except.error (RenderFailure.typeError
        ("py() got multiple values for keyword argument " ++ k))
    else
      mergeKwargs (explicit ++ [(k, v)]) rest

/-- The fixed default diagnostic of line 164 of py.py. -/
def defaultRenderErrorMsg : String := "Unknown render error in py renderer"

/-- The embedding of `render`, returning both the outcome and the trace of
events.  Parameters mirror the Python signature: `template` is the first
positional argument (line 141 immediately overwrites it with `tmplpath`, so
the body never uses it), `tmplpath` is `None` or a path string, `kws` is the
caller-supplied `**kws` dict.  `saltVal`, `grainsVal`, `optsVal`, `pillarVal`
are the ambient globals `__salt__`, `__grains__`, `__opts__`, `__pillar__`. -/
def renderT (exec : Executor) (isfile : String → Bool) (template : PyVal)
    (saltenv : String) (sls : String) (tmplpath : Option String)
    (saltVal grainsVal optsVal pillarVal : PyVal)
    (kws : List (String × PyVal)) :
    Except RenderFailure PyVal × List RenderEvent :=
  -- line 141: template = tmplpath (the parameter `template` is dead from here)
  let template := tmplpath
  match template with
  | Option.none =>
    -- line 142: os.path.isfile(None) raises TypeError inside the check
    (Except.error (RenderFailure.typeError
        "stat: path should be string, bytes, os.PathLike or integer, not NoneType"),
     [RenderEvent.checked Option.none])
  | Option.some p =>
    if isfile p = false then
      -- line 143
      (Except.error (RenderFailure.templateNotFound
          ("Template " ++ p ++ " is not a file!")),
       [RenderEvent.checked (Option.some p)])
    else
      -- lines 145-161: assemble the keyword arguments; a collision between
      -- an explicit keyword and **kws raises TypeError before the executor runs
      match mergeKwargs (builtinBindings saltVal grainsVal optsVal pillarVal saltenv sls)
          kws with
      | Except.error e => (Except.error e, [RenderEvent.checked (Option.some p)])
      | Except.ok ctx =>
        let envlp := exec p ctx
        if truthy (dictGet envlp "result" (PyVal.bool false)) = false then
          -- lines 162-165
          (Except.error (RenderFailure.renderError
              (dictGet envlp "data" (PyVal.str defaultRenderErrorMsg))),
           [RenderEvent.checked (Option.some p), RenderEvent.executed p ctx])
        else
          -- line 167: tmp_data["data"]
          match dictLookup envlp "data" with
          | Option.some d =>
            (Except.ok d,
             [RenderEvent.checked (Option.some p), RenderEvent.executed p ctx])
          | Option.none =>
            (Except.error (RenderFailure.keyError "data"),
             [RenderEvent.checked (Option.some p), RenderEvent.executed p ctx])

/-- The outcome of a `render` call: the returned value or the raised error. -/
def render (exec : Executor) (isfile : String → Bool) (template : PyVal)
    (saltenv : String) (sls : String) (tmplpath : Option String)
    (saltVal grainsVal optsVal pillarVal : PyVal)
    (kws : List (String × PyVal)) : Except RenderFailure PyVal :=
  (renderT exec isfile template saltenv sls tmplpath
    saltVal grainsVal optsVal pillarVal kws).1

/-- The event trace of a `render` call. -/
def renderEvents (exec : Executor) (isfile : String → Bool) (template : PyVal)
    (saltenv : String) (sls : String) (tmplpath : Option String)
    (saltVal grainsVal optsVal pillarVal : PyVal)
    (kws : List (String × PyVal)) : List RenderEvent :=
  (renderT exec isfile template saltenv sls tmplpath
    saltVal grainsVal optsVal pillarVal kws).2

/-- The executor contract of the design (section 4.3): when the envelope
reports success, a data field is present. -/
def WellFormedEnvelope (envlp : List (String × PyVal)) : Prop :=
  truthy (dictGet envlp "result" (PyVal.bool false)) = true →
    (dictLookup envlp "data").isSome = true

/-- Lookup in an appended dict finds the left entry first. -/
theorem dictLookup_append_left (es1 es2 : List (String × PyVal)) (k : String)
    (v : PyVal) (h : dictLookup es1 k = some v) :
    dictLookup (es1 ++ es2) k = some v := by
  induction es1 with
  | nil => simp [dictLookup, List.find?] at h
  | cons e rest ih =>
    simp only [dictLookup, List.cons_append, List.find?] at h ⊢
    cases hk : (e.1 == k) with
    | true => simpa [hk] using h
    | false =>
      rw [hk] at h
      exact ih h

/-- A key occurs in a dict exactly when `List.any` spots it. -/
theorem dictKey_any_iff (es : List (String × PyVal)) (k : String) :
    es.any (fun e => e.1 == k) = true ↔ k ∈ es.map Prod.fst := by
  simp [List.any_eq_true, List.mem_map]

/-- If some key of `kws` already occurs among the explicit keywords, the merge
raises a duplicate-keyword TypeError. -/
theorem mergeKwargs_collision (kws : List (String × PyVal)) :
    ∀ explicit k, k ∈ kws.map Prod.fst → k ∈ explicit.map Prod.fst →
    ∃ msg, mergeKwargs explicit kws = Except.error (RenderFailure.typeError msg) := by
  induction kws with
  | nil => intro explicit k h1 _; simp at h1
  | cons e rest ih =>
    intro explicit k h1 h2
    rcases e with ⟨k0, v0⟩
    by_cases hc : explicit.any (fun e => e.1 == k0) = true
    · exact ⟨"py() got multiple values for keyword argument " ++ k0,
        by simp [mergeKwargs, hc]⟩
    · simp only [List.map_cons, List.mem_cons] at h1
      have hk : k ∈ rest.map Prod.fst := by
        rcases h1 with h1 | h1
        · exfalso
          apply hc
          rw [dictKey_any_iff]
          rw [h1] at h2
          exact h2
        · exact h1
      have h2' : k ∈ (explicit ++ [(k0, v0)]).map Prod.fst := by
        simp only [List.map_append, List.mem_append]
        exact Or.inl h2
      rcases ih (explicit ++ [(k0, v0)]) k hk h2' with ⟨msg, hmsg⟩
      refine ⟨msg, ?_⟩
      simpa [mergeKwargs, hc] using hmsg

/-- If the keys of `kws` are fresh for the explicit keywords and mutually
distinct, the merge succeeds and the context is the explicit keywords followed
by `kws`. -/
theorem mergeKwargs_disjoint (kws : List (String × PyVal)) :
    ∀ explicit,
    (∀ k, k ∈ kws.map Prod.fst → k ∉ explicit.map Prod.fst) →
    (kws.map Prod.fst).Nodup →
    mergeKwargs explicit kws = Except.ok (explicit ++ kws) := by
  induction kws with
  | nil => intro explicit _ _; simp [mergeKwargs]
  | cons e rest ih =>
    intro explicit hdisj hnd
    rcases e with ⟨k0, v0⟩
    have hc : explicit.any (fun e => e.1 == k0) = false := by
      rw [Bool.eq_false_iff]
      intro hcon
      exact hdisj k0 (by simp) ((dictKey_any_iff explicit k0).mp hcon)
    simp only [List.map_cons, List.nodup_cons] at hnd
    have hstep := ih (explicit ++ [(k0, v0)])
      (by
        intro k hk
        simp only [List.map_append, List.mem_append, List.map_cons]
        rintro (h | h)
        · exact hdisj k (by simp [hk]) h
        · simp at h
          rw [h] at hk
          exact hnd.1 hk)
      hnd.2
    simp only [mergeKwargs, hc]
    rw [hstep]
    simp

/-- Merging only appends entries: a binding visible among the explicit
keywords is still bound to the same value in the merged context. -/
theorem mergeKwargs_preserves_lookup (kws : List (String × PyVal)) :
    ∀ explicit ctx k v, mergeKwargs explicit kws = Except.ok ctx →
    dictLookup explicit k = some v → dictLookup ctx k = some v := by
  induction kws with
  | nil =>
    intro explicit ctx k v hm hl
    simp [mergeKwargs] at hm
    rw [← hm]
    exact hl
  | cons e rest ih =>
    intro explicit ctx k v hm hl
    rcases e with ⟨k0, v0⟩
    by_cases hc : explicit.any (fun e => e.1 == k0) = true
    · simp [mergeKwargs, hc] at hm
    · simp only [mergeKwargs, hc, Bool.false_eq_true, if_false] at hm
      exact ih (explicit ++ [(k0, v0)]) ctx k v hm
        (dictLookup_append_left explicit [(k0, v0)] k v hl)

/-- Claim C1: for every result envelope whose result field is truthy (and whose
data field is present, as the envelope invariant guarantees for successes),
`render` returns exactly the envelope's data value, whatever its shape — no
schema validation, no transformation. -/
theorem render_success_identity (exec : Executor) (isfile : String → Bool)
    (template : PyVal) (saltenv sls p : String)
    (saltVal grainsVal optsVal pillarVal : PyVal)
    (kws ctx : List (String × PyVal)) (d : PyVal)
    (hfile : isfile p = true)
    (hctx : mergeKwargs (builtinBindings saltVal grainsVal optsVal pillarVal saltenv sls)
      kws = Except.ok ctx)
    (hres : truthy (dictGet (exec p ctx) "result" (PyVal.bool false)) = true)
    (hdata : dictLookup (exec p ctx) "data" = some d) :
    render exec isfile template saltenv sls (some p)
      saltVal grainsVal optsVal pillarVal kws = Except.ok d := by
  simp [render, renderT, hfile, hctx, hres, hdata]

/-- Witness for C1: the executor returns the result envelope of the spec's
scenario; `render` returns its data mapping unchanged. -/
theorem render_success_identity_witness :
    render
      (fun _ _ => [("result", PyVal.bool true),
        ("data", PyVal.dict [("common_packages", PyVal.dict [("pkg.installed",
          PyVal.list [PyVal.dict [("pkgs",
            PyVal.list [PyVal.str "curl", PyVal.str "vim"])]])])])])
      (fun _ => true) PyVal.none "base" "" (some "/srv/salt/ok.py")
      (PyVal.dict []) (PyVal.dict []) (PyVal.dict []) (PyVal.dict []) []
      = Except.ok (PyVal.dict [("common_packages", PyVal.dict [("pkg.installed",
          PyVal.list [PyVal.dict [("pkgs",
            PyVal.list [PyVal.str "curl", PyVal.str "vim"])]])])]) :=
  render_success_identity _ _ _ _ _ _ _ _ _ _ _ _ _ rfl rfl rfl rfl

/-- Claim C2 counterexample: (a) for the envelope with falsy result and no
data, the message is the code's literal "Unknown render error in py renderer",
not the claimed "Unknown render error in renderer"; (b) for the envelope with
falsy result and empty-string data, the message is that empty string, not the
claimed default. -/
theorem render_failure_default_counterexample :
    render (fun _ _ => [("result", PyVal.bool false)]) (fun _ => true)
        PyVal.none "base" "" (some "/srv/salt/a.py")
        PyVal.none PyVal.none PyVal.none PyVal.none []
      = Except.error (RenderFailure.renderError
          (PyVal.str "Unknown render error in py renderer"))
    ∧ render (fun _ _ => [("result", PyVal.bool false), ("data", PyVal.str "")])
        (fun _ => true) PyVal.none "base" "" (some "/srv/salt/a.py")
        PyVal.none PyVal.none PyVal.none PyVal.none []
      = Except.error (RenderFailure.renderError (PyVal.str ""))
    ∧ "Unknown render error in py renderer" ≠ "Unknown render error in renderer"
    ∧ ("" : String) ≠ "Unknown render error in renderer" :=
  ⟨rfl, rfl, by decide, by decide⟩

/-- Claim C2 (amended): for every envelope whose result field is falsy,
`render` fails with RenderError whose message is the envelope's data whenever
the data key is present (even if it is empty), and is the fixed default
"Unknown render error in py renderer" exactly when the data key is absent. -/
theorem render_failure_message (exec : Executor) (isfile : String → Bool)
    (template : PyVal) (saltenv sls p : String)
    (saltVal grainsVal optsVal pillarVal : PyVal)
    (kws ctx : List (String × PyVal))
    (hfile : isfile p = true)
    (hctx : mergeKwargs (builtinBindings saltVal grainsVal optsVal pillarVal saltenv sls)
      kws = Except.ok ctx)
    (hres : truthy (dictGet (exec p ctx) "result" (PyVal.bool false)) = false) :
    render exec isfile template saltenv sls (some p)
      saltVal grainsVal optsVal pillarVal kws
      = Except.error (RenderFailure.renderError
          (dictGet (exec p ctx) "data" (PyVal.str defaultRenderErrorMsg))) := by
  simp [render, renderT, hfile, hctx, hres]

/-- Witness for C2 (amended): the spec's failure scenario, where the envelope
carries the diagnostic "syntax error at line 4". -/
theorem render_failure_message_witness :
    render (fun _ _ => [("result", PyVal.bool false),
        ("data", PyVal.str "syntax error at line 4")])
      (fun _ => true) PyVal.none "base" "" (some "/srv/salt/bad.py")
      PyVal.none PyVal.none PyVal.none PyVal.none []
      = Except.error (RenderFailure.renderError (PyVal.str "syntax error at line 4")) :=
  render_failure_message _ _ _ _ _ _ _ _ _ _ _ _ rfl rfl rfl

/-- Claim C3: for every path the filesystem oracle rejects, `render` fails
with the template-not-found error, whose message contains the offending
path. -/
theorem render_missing_template (exec : Executor) (isfile : String → Bool)
    (template : PyVal) (saltenv sls p : String)
    (saltVal grainsVal optsVal pillarVal : PyVal)
    (kws : List (String × PyVal))
    (hfile : isfile p = false) :
    ∃ before after, render exec isfile template saltenv sls (some p)
      saltVal grainsVal optsVal pillarVal kws
      = Except.error (RenderFailure.templateNotFound (before ++ p ++ after)) :=
  ⟨"Template ", " is not a file!", by simp [render, renderT, hfile]⟩

/-- Witness for C3: the spec's scenario at "/srv/salt/missing.py". -/
theorem render_missing_template_witness :
    ∃ before after, render (fun _ _ => []) (fun _ => false) PyVal.none "base" ""
      (some "/srv/salt/missing.py") PyVal.none PyVal.none PyVal.none PyVal.none []
      = Except.error (RenderFailure.templateNotFound
          (before ++ "/srv/salt/missing.py" ++ after)) :=
  render_missing_template _ _ _ _ _ _ _ _ _ _ _ rfl

/-- Claim C4: for every path the filesystem oracle rejects, the event trace of
the render call is only the existence check — no context is built and the
executor is never invoked, whatever the executor is. -/
theorem executor_not_invoked_missing (exec : Executor) (isfile : String → Bool)
    (template : PyVal) (saltenv sls p : String)
    (saltVal grainsVal optsVal pillarVal : PyVal)
    (kws : List (String × PyVal))
    (hfile : isfile p = false) :
    renderEvents exec isfile template saltenv sls (some p)
      saltVal grainsVal optsVal pillarVal kws
      = [RenderEvent.checked (some p)] := by
  simp [renderEvents, renderT, hfile]

/-- Witness for C4: a missing path yields the one-event trace. -/
theorem executor_not_invoked_missing_witness :
    renderEvents (fun _ _ => [("result", PyVal.bool true), ("data", PyVal.dict [])])
      (fun _ => false) PyVal.none "base" "" (some "/srv/salt/missing.py")
      PyVal.none PyVal.none PyVal.none PyVal.none []
      = [RenderEvent.checked (some "/srv/salt/missing.py")] :=
  executor_not_invoked_missing _ _ _ _ _ _ _ _ _ _ _ rfl

/-- Claim C5 counterexample: with the extra override `salt` (the alias of the
function registry), `render` does not hand the script the override — it fails
with a duplicate-keyword TypeError, and the executor is never invoked, so the
script observes nothing at all. -/
theorem override_collision_counterexample :
    render (fun _ _ => [("result", PyVal.bool true), ("data", PyVal.str "tree")])
        (fun _ => true) PyVal.none "base" "" (some "/srv/salt/a.py")
        (PyVal.str "builtin registry") PyVal.none PyVal.none PyVal.none
        [("salt", PyVal.str "override")]
      = Except.error (RenderFailure.typeError
          "py() got multiple values for keyword argument salt")
    ∧ renderEvents (fun _ _ => [("result", PyVal.bool true), ("data", PyVal.str "tree")])
        (fun _ => true) PyVal.none "base" "" (some "/srv/salt/a.py")
        (PyVal.str "builtin registry") PyVal.none PyVal.none PyVal.none
        [("salt", PyVal.str "override")]
      = [RenderEvent.checked (some "/srv/salt/a.py")] :=
  ⟨rfl, rfl⟩

/-- Claim C5 (amended): for every key of the caller-supplied extras that
collides with a built-in binding name or alias, `render` fails with a
duplicate-keyword TypeError before the script runs: the executor is never
invoked, so the script observes neither the override nor the built-in. -/
theorem render_override_collision (exec : Executor) (isfile : String → Bool)
    (template : PyVal) (saltenv sls p : String)
    (saltVal grainsVal optsVal pillarVal : PyVal)
    (kws : List (String × PyVal)) (k : String)
    (hfile : isfile p = true)
    (hbuiltin : k ∈ (builtinBindings saltVal grainsVal optsVal pillarVal
      saltenv sls).map Prod.fst)
    (hk : k ∈ kws.map Prod.fst) :
    (∃ msg, render exec isfile template saltenv sls (some p)
        saltVal grainsVal optsVal pillarVal kws
      = Except.error (RenderFailure.typeError msg))
    ∧ renderEvents exec isfile template saltenv sls (some p)
        saltVal grainsVal optsVal pillarVal kws
      = [RenderEvent.checked (some p)] := by
  rcases mergeKwargs_collision kws
      (builtinBindings saltVal grainsVal optsVal pillarVal saltenv sls) k hk hbuiltin
    with ⟨msg, hmsg⟩
  exact ⟨⟨msg, by simp [render, renderT, hfile, hmsg]⟩,
    by simp [renderEvents, renderT, hfile, hmsg]⟩

/-- Witness for C5 (amended): the extra key `pillar` collides with the alias
of the external-data binding, and the call fails with a TypeError. -/
theorem render_override_collision_witness :
    (∃ msg, render (fun _ _ => [("result", PyVal.bool true), ("data", PyVal.dict [])])
        (fun _ => true) PyVal.none "base" "" (some "/srv/salt/b.py")
        PyVal.none PyVal.none PyVal.none (PyVal.dict [("k", PyVal.int 1)])
        [("pillar", PyVal.dict [])]
      = Except.error (RenderFailure.typeError msg))
    ∧ renderEvents (fun _ _ => [("result", PyVal.bool true), ("data", PyVal.dict [])])
        (fun _ => true) PyVal.none "base" "" (some "/srv/salt/b.py")
        PyVal.none PyVal.none PyVal.none (PyVal.dict [("k", PyVal.int 1)])
        [("pillar", PyVal.dict [])]
      = [RenderEvent.checked (some "/srv/salt/b.py")] :=
  render_override_collision _ _ _ _ _ _ _ _ _ _ _ "pillar" rfl (by decide) (by decide)

/-- Claim C6: in every context a render call builds (that is, whenever the
keyword-argument merge succeeds), each of the six built-in bindings is bound
under both its reserved dunder name and its short alias, and the two names are
bound to the identical value. -/
theorem context_dual_bindings (saltVal grainsVal optsVal pillarVal : PyVal)
    (saltenv sls : String) (kws ctx : List (String × PyVal))
    (hctx : mergeKwargs (builtinBindings saltVal grainsVal optsVal pillarVal saltenv sls)
      kws = Except.ok ctx) :
    (dictLookup ctx "__salt__" = some saltVal ∧ dictLookup ctx "salt" = some saltVal)
    ∧ (dictLookup ctx "__grains__" = some grainsVal
        ∧ dictLookup ctx "grains" = some grainsVal)
    ∧ (dictLookup ctx "__opts__" = some optsVal ∧ dictLookup ctx "opts" = some optsVal)
    ∧ (dictLookup ctx "__pillar__" = some pillarVal
        ∧ dictLookup ctx "pillar" = some pillarVal)
    ∧ (dictLookup ctx "__env__" = some (PyVal.str saltenv)
        ∧ dictLookup ctx "saltenv" = some (PyVal.str saltenv))
    ∧ (dictLookup ctx "__sls__" = some (PyVal.str sls)
        ∧ dictLookup ctx "sls" = some (PyVal.str sls)) := by
  have h := mergeKwargs_preserves_lookup kws
    (builtinBindings saltVal grainsVal optsVal pillarVal saltenv sls) ctx
  exact ⟨⟨h _ _ hctx rfl, h _ _ hctx rfl⟩, ⟨h _ _ hctx rfl, h _ _ hctx rfl⟩,
    ⟨h _ _ hctx rfl, h _ _ hctx rfl⟩, ⟨h _ _ hctx rfl, h _ _ hctx rfl⟩,
    ⟨h _ _ hctx rfl, h _ _ hctx rfl⟩, ⟨h _ _ hctx rfl, h _ _ hctx rfl⟩⟩

/-- Witness for C6: the context of a render with no extras binds every
reserved name and its alias to the identical value. -/
theorem context_dual_bindings_witness :
    (dictLookup (builtinBindings (PyVal.str "reg") (PyVal.dict [("os", PyVal.str "L")])
        (PyVal.dict []) (PyVal.dict [("k", PyVal.int 1)]) "base" "web.server")
        "__salt__" = some (PyVal.str "reg")
      ∧ dictLookup (builtinBindings (PyVal.str "reg") (PyVal.dict [("os", PyVal.str "L")])
        (PyVal.dict []) (PyVal.dict [("k", PyVal.int 1)]) "base" "web.server")
        "salt" = some (PyVal.str "reg"))
    ∧ (dictLookup (builtinBindings (PyVal.str "reg") (PyVal.dict [("os", PyVal.str "L")])
        (PyVal.dict []) (PyVal.dict [("k", PyVal.int 1)]) "base" "web.server")
        "__grains__" = some (PyVal.dict [("os", PyVal.str "L")])
      ∧ dictLookup (builtinBindings (PyVal.str "reg") (PyVal.dict [("os", PyVal.str "L")])
        (PyVal.dict []) (PyVal.dict [("k", PyVal.int 1)]) "base" "web.server")
        "grains" = some (PyVal.dict [("os", PyVal.str "L")]))
    ∧ (dictLookup (builtinBindings (PyVal.str "reg") (PyVal.dict [("os", PyVal.str "L")])
        (PyVal.dict []) (PyVal.dict [("k", PyVal.int 1)]) "base" "web.server")
        "__opts__" = some (PyVal.dict [])
      ∧ dictLookup (builtinBindings (PyVal.str "reg") (PyVal.dict [("os", PyVal.str "L")])
        (PyVal.dict []) (PyVal.dict [("k", PyVal.int 1)]) "base" "web.server")
        "opts" = some (PyVal.dict []))
    ∧ (dictLookup (builtinBindings (PyVal.str "reg") (PyVal.dict [("os", PyVal.str "L")])
        (PyVal.dict []) (PyVal.dict [("k", PyVal.int 1)]) "base" "web.server")
        "__pillar__" = some (PyVal.dict [("k", PyVal.int 1)])
      ∧ dictLookup (builtinBindings (PyVal.str "reg") (PyVal.dict [("os", PyVal.str "L")])
        (PyVal.dict []) (PyVal.dict [("k", PyVal.int 1)]) "base" "web.server")
        "pillar" = some (PyVal.dict [("k", PyVal.int 1)]))
    ∧ (dictLookup (builtinBindings (PyVal.str "reg") (PyVal.dict [("os", PyVal.str "L")])
        (PyVal.dict []) (PyVal.dict [("k", PyVal.int 1)]) "base" "web.server")
        "__env__" = some (PyVal.str "base")
      ∧ dictLookup (builtinBindings (PyVal.str "reg") (PyVal.dict [("os", PyVal.str "L")])
        (PyVal.dict []) (PyVal.dict [("k", PyVal.int 1)]) "base" "web.server")
        "saltenv" = some (PyVal.str "base"))
    ∧ (dictLookup (builtinBindings (PyVal.str "reg") (PyVal.dict [("os", PyVal.str "L")])
        (PyVal.dict []) (PyVal.dict [("k", PyVal.int 1)]) "base" "web.server")
        "__sls__" = some (PyVal.str "web.server")
      ∧ dictLookup (builtinBindings (PyVal.str "reg") (PyVal.dict [("os", PyVal.str "L")])
        (PyVal.dict []) (PyVal.dict [("k", PyVal.int 1)]) "base" "web.server")
        "sls" = some (PyVal.str "web.server")) :=
  context_dual_bindings _ _ _ _ _ _ [] _ rfl

/-- Claim C7 counterexample: calling `render` with `tmplpath` left at its
default `None` (passing the template path only through the first positional
argument) raises a TypeError from `os.path.isfile(None)` — neither of the two
typed errors, and no configuration tree. -/
theorem render_none_path_counterexample :
    render (fun _ _ => [("result", PyVal.bool true), ("data", PyVal.dict [])])
        (fun _ => true) (PyVal.str "/srv/salt/a.py") "base" "" Option.none
        PyVal.none PyVal.none PyVal.none PyVal.none []
      = Except.error (RenderFailure.typeError
          "stat: path should be string, bytes, os.PathLike or integer, not NoneType") :=
  rfl

/-- Claim C7 (amended): for every input whose `tmplpath` is a string, whose
extra keys are mutually distinct and do not collide with a built-in binding
name, and whose executor honors the envelope contract (a data field is present
whenever the result field is truthy), `render` either returns the envelope's
data or fails with exactly one of the two typed errors. -/
theorem render_typed_errors (exec : Executor) (isfile : String → Bool)
    (template : PyVal) (saltenv sls p : String)
    (saltVal grainsVal optsVal pillarVal : PyVal)
    (kws : List (String × PyVal))
    (hdisj : ∀ k, k ∈ kws.map Prod.fst →
      k ∉ (builtinBindings saltVal grainsVal optsVal pillarVal saltenv sls).map Prod.fst)
    (hnd : (kws.map Prod.fst).Nodup)
    (hwf : ∀ q c, WellFormedEnvelope (exec q c)) :
    (∃ d, render exec isfile template saltenv sls (some p)
        saltVal grainsVal optsVal pillarVal kws = Except.ok d)
    ∨ (∃ m, render exec isfile template saltenv sls (some p)
        saltVal grainsVal optsVal pillarVal kws
        = Except.error (RenderFailure.templateNotFound m))
    ∨ (∃ m, render exec isfile template saltenv sls (some p)
        saltVal grainsVal optsVal pillarVal kws
        = Except.error (RenderFailure.renderError m)) := by
  by_cases hfile : isfile p = true
  · have hctx := mergeKwargs_disjoint kws
      (builtinBindings saltVal grainsVal optsVal pillarVal saltenv sls)
      hdisj hnd
    set ctx := builtinBindings saltVal grainsVal optsVal pillarVal saltenv sls ++ kws
      with hctxdef
    by_cases hres : truthy (dictGet (exec p ctx) "result" (PyVal.bool false)) = true
    · have hdata := hwf p ctx hres
      rcases Option.isSome_iff_exists.mp hdata with ⟨d, hd⟩
      exact Or.inl ⟨d, by simp [render, renderT, hfile, hctx, hres, hd]⟩
    · have hres' : truthy (dictGet (exec p ctx) "result" (PyVal.bool false)) = false :=
        by simpa using hres
      exact Or.inr (Or.inr ⟨dictGet (exec p ctx) "data" (PyVal.str defaultRenderErrorMsg),
        by simp [render, renderT, hfile, hctx, hres']⟩)
  · have hfile' : isfile p = false := by simpa using hfile
    exact Or.inr (Or.inl ⟨"Template " ++ p ++ " is not a file!",
      by simp [render, renderT, hfile']⟩)

/-- Witness for C7 (amended): a render with one non-colliding extra key and a
contract-honoring executor lands in one of the three allowed outcomes. -/
theorem render_typed_errors_witness :
    (∃ d, render (fun _ _ => [("result", PyVal.bool true), ("data", PyVal.dict [])])
        (fun _ => true) PyVal.none "base" "" (some "/srv/salt/c.py")
        PyVal.none PyVal.none PyVal.none PyVal.none
        [("site_name", PyVal.str "example.org")] = Except.ok d)
    ∨ (∃ m, render (fun _ _ => [("result", PyVal.bool true), ("data", PyVal.dict [])])
        (fun _ => true) PyVal.none "base" "" (some "/srv/salt/c.py")
        PyVal.none PyVal.none PyVal.none PyVal.none
        [("site_name", PyVal.str "example.org")]
        = Except.error (RenderFailure.templateNotFound m))
    ∨ (∃ m, render (fun _ _ => [("result", PyVal.bool true), ("data", PyVal.dict [])])
        (fun _ => true) PyVal.none "base" "" (some "/srv/salt/c.py")
        PyVal.none PyVal.none PyVal.none PyVal.none
        [("site_name", PyVal.str "example.org")]
        = Except.error (RenderFailure.renderError m)) :=
  render_typed_errors _ _ _ _ _ _ _ _ _ _ _
    (by intro k hk; simp at hk; subst hk; decide)
    (by decide)
    (fun _ _ => fun _ => rfl)

/-- Claim C8: render is a pure function of its inputs: two calls with the same
path, environment id, script id, globals and extras, against executors with
the same behavior, produce the identical outcome and trace. -/
theorem render_pure (exec1 exec2 : Executor) (isfile : String → Bool)
    (template : PyVal) (saltenv sls : String) (tmplpath : Option String)
    (saltVal grainsVal optsVal pillarVal : PyVal)
    (kws : List (String × PyVal))
    (hagree : ∀ q c, exec1 q c = exec2 q c) :
    renderT exec1 isfile template saltenv sls tmplpath
      saltVal grainsVal optsVal pillarVal kws
    = renderT exec2 isfile template saltenv sls tmplpath
      saltVal grainsVal optsVal pillarVal kws := by
  have h : exec1 = exec2 := funext fun q => funext fun c => hagree q c
  rw [h]

/-- Witness for C8: two syntactically different executors with the same
behavior give renders with identical outcome and trace. -/
theorem render_pure_witness :
    renderT (fun _ _ => [("result", PyVal.bool true), ("data", PyVal.str "t")])
      (fun _ => true) PyVal.none "base" "" (some "/srv/salt/d.py")
      PyVal.none PyVal.none PyVal.none PyVal.none []
    = renderT (fun _ _ => ("result", PyVal.bool true) :: [("data", PyVal.str "t")])
      (fun _ => true) PyVal.none "base" "" (some "/srv/salt/d.py")
      PyVal.none PyVal.none PyVal.none PyVal.none [] :=
  render_pure _ _ _ _ _ _ _ _ _ _ _ _ (fun _ _ => rfl)

/-- Claim C9: the outcome and trace of `render` do not depend on its first
positional argument `template`: line 141 overwrites it with `tmplpath` before
any use, so only `tmplpath` is checked and executed. -/
theorem render_independent_of_first_argument (exec : Executor)
    (isfile : String → Bool) (t1 t2 : PyVal) (saltenv sls : String)
    (tmplpath : Option String) (saltVal grainsVal optsVal pillarVal : PyVal)
    (kws : List (String × PyVal)) :
    renderT exec isfile t1 saltenv sls tmplpath
      saltVal grainsVal optsVal pillarVal kws
    = renderT exec isfile t2 saltenv sls tmplpath
      saltVal grainsVal optsVal pillarVal kws := rfl

/-- Claim C10: an envelope with no result key at all is a failure —
`tmp_data.get("result", False)` yields the falsy default — so `render` fails
with RenderError carrying the envelope's data when present, else the fixed
default message. -/
theorem render_missing_result_failure (exec : Executor) (isfile : String → Bool)
    (template : PyVal) (saltenv sls p : String)
    (saltVal grainsVal optsVal pillarVal : PyVal)
    (kws ctx : List (String × PyVal))
    (hfile : isfile p = true)
    (hctx : mergeKwargs (builtinBindings saltVal grainsVal optsVal pillarVal saltenv sls)
      kws = Except.ok ctx)
    (hnores : dictLookup (exec p ctx) "result" = Option.none) :
    render exec isfile template saltenv sls (some p)
      saltVal grainsVal optsVal pillarVal kws
      = Except.error (RenderFailure.renderError
          (dictGet (exec p ctx) "data" (PyVal.str defaultRenderErrorMsg))) := by
  have hres : truthy (dictGet (exec p ctx) "result" (PyVal.bool false)) = false := by
    simp [dictGet, hnores, truthy]
  simp [render, renderT, hfile, hctx, hres]

/-- Witness for C10: the executor returns an envelope with only a data field;
render fails with RenderError carrying that data. -/
theorem render_missing_result_failure_witness :
    render (fun _ _ => [("data", PyVal.str "oops")]) (fun _ => true)
      PyVal.none "base" "" (some "/srv/salt/e.py")
      PyVal.none PyVal.none PyVal.none PyVal.none []
      = Except.error (RenderFailure.renderError (PyVal.str "oops")) :=
  render_missing_result_failure _ _ _ _ _ _ _ _ _ _ _ _ rfl rfl rfl

end PyRenderer
